import Mathlib

/-!
Verification of the GlimpseProject CRUD backend (src/main.py, src/models.py,
src/schema.py, src/dbconf.py) against its natural-language specification.

The Python code is shallowly embedded: each handler or helper becomes a pure
Lean function over explicit state.  External effects (the database session,
the environment variables, the outcomes of the three startup checks) are
passed in as explicit values; the database session is modelled both as a
trace of operations (`DbOp`) and as a key-indexed state (`LeadState`).
-/

namespace Glimpse

/-- A CSV data row as produced by `csv.DictReader` (main.py line 90): a map
from header names to cell values.  A key that is absent from the association
list models a column missing from the header (`row["Lead ID"]` raises
`KeyError`); a key present with value `none` models a short data row padded
with Python `None` by `DictReader` (`int(None)` raises `TypeError`,
`row.get(k)` yields `None`). -/
abbrev Row := List (String × Option String)

/-- `row.get(key)` for a `DictReader` row: `None` when the column is absent
or the cell was padded with `None`. -/
def rowGet (row : Row) (key : String) : Option String :=
  (row.lookup key).join

/-- Value of a digit string, `none` as soon as a non-digit character occurs. -/
def digitsVal : List Char → Nat → Option Nat
  | [], acc => some acc
  | c :: cs, acc =>
    if c.isDigit then digitsVal cs (acc * 10 + (c.toNat - 48)) else none

/-- Digit-list to `Nat`; the empty list is rejected (Python `int("")` and
`int("+")` raise `ValueError`). -/
def digitsToNat (cs : List Char) : Option Nat :=
  match cs with
  | [] => none
  | _ :: _ => digitsVal cs 0

/-- Python `int(s)` on a string: surrounding whitespace is stripped, an
optional single sign is allowed, then decimal digits.  (Underscore digit
separators and non-ASCII digits, which CPython also accepts, are not
modelled; no claim depends on them.)  `none` models `ValueError`. -/
def pyParseInt (s : String) : Option Int :=
  let cs := ((s.data.dropWhile Char.isWhitespace).reverse.dropWhile
      Char.isWhitespace).reverse
  match cs with
  | '+' :: rest => (digitsToNat rest).map Int.ofNat
  | '-' :: rest => (digitsToNat rest).map (fun n => -(n : Int))
  | rest => (digitsToNat rest).map Int.ofNat

/-- The `leads` table row (models.py, class `Lead`): externally supplied
integer primary key, six nullable free-text columns. -/
structure Lead where
  id : Int
  lead_name : Option String
  email : Option String
  source : Option String
  interest_level : Option String
  status : Option String
  salesperson : Option String
deriving Repr, DecidableEq

/-- The body of the `try` block in `process_csv_data` (main.py lines 94-103)
for one row: build a `Lead` from the fixed column names, coercing
`row["Lead ID"]` with `int`.  `none` models any exception (missing
"Lead ID" column, `None` cell, unparseable integer), which line 108 catches
so the row is skipped. -/
def rowToLead (row : Row) : Option Lead :=
  match row.lookup "Lead ID" with
  | none => none
  | some none => none
  | some (some s) =>
    match pyParseInt s with
    | none => none
    | some n =>
      some { id := n
             lead_name := rowGet row "Lead Name"
             email := rowGet row "Contact Information"
             source := rowGet row "Source"
             interest_level := rowGet row "Interest Level"
             status := rowGet row "Status"
             salesperson := rowGet row "Assigned Salesperson" }

/-- One operation issued on the database session. -/
inductive DbOp where
  | merge (l : Lead)
  | commit
deriving Repr, DecidableEq

/-- `process_csv_data` (main.py lines 89-113), with the session modelled as
the trace of operations issued: for each row that maps to a `Lead`,
`db.merge(lead)` is issued and the counter incremented; a row that raises is
skipped; after the loop a single `db.commit()` is issued and the count
returned.  (The uploaded bytes are assumed already decoded and parsed into
`Row`s; a decode failure would propagate out of the whole function.) -/
def process_csv_data (rows : List Row) : Nat × List DbOp :=
  let r := rows.foldl
    (fun (acc : Nat × List DbOp) row =>
      match rowToLead row with
      | some l => (acc.1 + 1, acc.2 ++ [DbOp.merge l])
      | none => acc)
    (0, [])
  (r.1, r.2 ++ [DbOp.commit])

/-- A response from the `POST /files/` handler: either the 200 success body
`{filename, processed_count, status: "success"}` or an `HTTPException`
escaping the handler with a status code and detail string. -/
inductive UploadResult where
  | ok (filename : String) (processed_count : Nat)
  | httpError (status : Nat) (detail : String)
deriving Repr, DecidableEq

/-- `upload_file` (main.py lines 115-136).  Everything after reading the
bytes sits inside one `try` whose `except Exception` re-raises any exception
as `HTTPException(500, f"Failed to process file: {e}")`.  In particular the
`raise HTTPException(status_code=400, detail="Unsupported file type")` on
line 127 is itself an `Exception`, is caught on line 135, and reaches the
client as a 500 whose detail embeds `str(e) = "400: Unsupported file type"`.
The `application/json` branch only prints and falls through to the success
response with `processed_count` still 0. -/
def upload_file (filename : String) (content_type : String) (rows : List Row) :
    UploadResult :=
  if content_type = "application/json" then
    UploadResult.ok filename 0
  else if content_type = "text/csv" then
    UploadResult.ok filename (process_csv_data rows).1
  else
    UploadResult.httpError 500 "Failed to process file: 400: Unsupported file type"

/-- The stored leads table keyed by primary key, as seen after a commit. -/
def LeadState := Int → Option Lead

/-- `db.merge(lead)` on the `leads` table: insert-or-replace by primary key
(upsert). -/
def applyMerge (s : LeadState) (l : Lead) : LeadState :=
  fun k => if k = l.id then some l else s k

/-- Effect of one loop iteration of `process_csv_data` on the stored state:
a row that maps to a `Lead` is merged, a row that raises leaves the state
unchanged. -/
def mergeRow (s : LeadState) (row : Row) : LeadState :=
  match rowToLead row with
  | some l => applyMerge s l
  | none => s

/-- Stored leads state after ingesting one CSV file (all merges of
`process_csv_data` applied in row order, then committed). -/
def ingest (s : LeadState) (rows : List Row) : LeadState :=
  rows.foldl mergeRow s

/-- The last `Lead` value written at key `k` by the file's rows, if any. -/
def lastWrite (rows : List Row) (k : Int) : Option Lead :=
  rows.foldl
    (fun acc row =>
      match rowToLead row with
      | some l => if k = l.id then some l else acc
      | none => acc)
    none

/-- Query parameters of `GET /leads/` (main.py lines 42-47), each optional. -/
structure LeadFilters where
  id : Option Int
  name : Option String
  source : Option String
  interest_level : Option String
  status : Option String
  salesperson : Option String
deriving Repr, DecidableEq

/-- One `if param is not None: query = query.filter(column == param)` step.
The SQL comparison `column = value` is false on a NULL column, hence
`field l == some v`. -/
def applyOptFilter (q : List Lead) (param : Option String)
    (field : Lead → Option String) : List Lead :=
  match param with
  | some v => q.filter (fun l => field l == some v)
  | none => q

/-- The query built by `get_leads` (main.py lines 49-65): when `id` is
present only `Lead.id == id` is filtered; otherwise the five other filters
are chained in source order. -/
def get_leads (db : List Lead) (f : LeadFilters) : List Lead :=
  match f.id with
  | some i => db.filter (fun l => l.id == i)
  | none =>
    applyOptFilter
      (applyOptFilter
        (applyOptFilter
          (applyOptFilter
            (applyOptFilter db f.name Lead.lead_name)
            f.source Lead.source)
          f.interest_level Lead.interest_level)
        f.status Lead.status)
      f.salesperson Lead.salesperson

/-- `true` iff a lead passes every filter that was supplied (the conjunction
`get_leads` applies when `id` is absent). -/
def matchesAll (f : LeadFilters) (l : Lead) : Bool :=
  (match f.name with | some v => l.lead_name == some v | none => true) &&
  (match f.source with | some v => l.source == some v | none => true) &&
  (match f.interest_level with | some v => l.interest_level == some v | none => true) &&
  (match f.status with | some v => l.status == some v | none => true) &&
  (match f.salesperson with | some v => l.salesperson == some v | none => true)

/-- A `GET /leads/` request with no query parameters supplied. -/
def noFilters : LeadFilters :=
  { id := none, name := none, source := none, interest_level := none,
    status := none, salesperson := none }

/-- The environment `dbconf.py` runs in: the `RAILWAY_ENVIRONMENT_NAME`
variable and the outcomes of the three external database probes (each probe
talks to the real database, so its result is an input of the model). -/
structure DbEnv where
  railway_environment_name : Option String
  conn_ok : Bool
  migration_current : Bool
  schema_matches : Bool
deriving Repr, DecidableEq

/-- Truthiness of `os.getenv("RAILWAY_ENVIRONMENT_NAME")` (dbconf.py line
138): an unset variable gives `None` and an empty string is also falsy. -/
def railwayFlag (env : DbEnv) : Bool :=
  match env.railway_environment_name with
  | some s => !(s == "")
  | none => false

/-- `test_connection` (dbconf.py lines 64-73): `SELECT 1` succeeds or not. -/
def test_connection (env : DbEnv) : Bool := env.conn_ok

/-- `check_migration_status` (dbconf.py lines 75-97): current revision
equals head revision, with any exception mapped to `False`. -/
def check_migration_status (env : DbEnv) : Bool := env.migration_current

/-- `check_schema_drift` (dbconf.py lines 99-127): `compare_metadata` finds
no diff, with any exception mapped to `False`. -/
def check_schema_drift (env : DbEnv) : Bool := env.schema_matches

/-- Names of the three health-check steps, used to record which steps a run
of `comprehensive_db_check` actually performed. -/
inductive CheckStep where
  | connection
  | migration
  | schemaDrift
deriving Repr, DecidableEq

/-- `comprehensive_db_check` (dbconf.py lines 129-157), instrumented with
the list of steps performed: return `True` immediately when the Railway
flag is truthy; otherwise run connection, migration and schema-drift checks
in order, returning `False` at the first failure. -/
def comprehensive_db_check (env : DbEnv) : Bool × List CheckStep :=
  if railwayFlag env then (true, [])
  else if !test_connection env then (false, [CheckStep.connection])
  else if !check_migration_status env then
    (false, [CheckStep.connection, CheckStep.migration])
  else if !check_schema_drift env then
    (false, [CheckStep.connection, CheckStep.migration, CheckStep.schemaDrift])
  else (true, [CheckStep.connection, CheckStep.migration, CheckStep.schemaDrift])

/-- `startup_event` (main.py lines 141-148): raise `RuntimeError` when the
comprehensive check fails, otherwise return normally. -/
def startup_event (env : DbEnv) : Except String Unit :=
  if !(comprehensive_db_check env).1 then
    Except.error "Database issues detected - may have unexpected behaviors"
  else Except.ok ()

/-- Marker that `uvicorn.run(app, ...)` was reached. -/
inductive ServerStarted where
  | started
deriving Repr, DecidableEq

/-- The `__main__` block (main.py lines 150-153): `startup_event()` runs
first, so its `RuntimeError` propagates before the server is started.  (On
the success path the next line `int(os.getenv("PORT", 8888))` raises
`NameError` because main.py never imports `os`; that line is modelled
faithfully but no claim here depends on it.) -/
def run_main (env : DbEnv) : Except String ServerStarted :=
  match startup_event env with
  | Except.error e => Except.error e
  | Except.ok () => Except.error "NameError: name 'os' is not defined"

/-- The `LeadRead` response schema (schema.py lines 80-91): `id : int` and
six fields annotated `str` with default `None`.  Under Pydantic v2 a `None`
attribute value is not a valid `str`, so serializing a stored lead with any
NULL column fails; `lead_name` and `email` additionally carry
`max_length=100`. -/
structure LeadRead where
  id : Int
  lead_name : String
  email : String
  source : String
  interest_level : String
  status : String
  salesperson : String
deriving Repr, DecidableEq

/-- Validation of one stored `Lead` against the `LeadRead` response model
(`from_attributes = True`): every `str`-annotated field must hold an actual
string, and the two length-constrained fields must fit. -/
def validateLeadRead (l : Lead) : Option LeadRead :=
  match l.lead_name, l.email, l.source, l.interest_level, l.status, l.salesperson with
  | some n, some e, some s, some il, some st, some sp =>
    if n.length ≤ 100 && e.length ≤ 100 then
      some { id := l.id, lead_name := n, email := e, source := s,
             interest_level := il, status := st, salesperson := sp }
    else none
  | _, _, _, _, _, _ => none

/-- FastAPI validating the `List[LeadRead]` response item by item: the first
invalid item aborts serialization (`ResponseValidationError`). -/
def validateAll : List Lead → Option (List LeadRead)
  | [] => some []
  | l :: ls =>
    match validateLeadRead l with
    | none => none
    | some r => (validateAll ls).map (fun rs => r :: rs)

/-- Outcome of `GET /leads/` as seen by the client: the serialized record
list, or the HTTP 500 produced when the response fails model validation. -/
inductive LeadsResponse where
  | ok (leads : List LeadRead)
  | validationError
deriving Repr, DecidableEq

/-- The full `GET /leads/` endpoint (main.py lines 41-68): run the filtered
query, then validate the result against `response_model=List[LeadRead]`. -/
def get_leads_endpoint (db : List Lead) (f : LeadFilters) : LeadsResponse :=
  match validateAll (get_leads db f) with
  | some out => LeadsResponse.ok out
  | none => LeadsResponse.validationError

example : (process_csv_data []).1 = 0 := by decide

example :
    (process_csv_data [[("Lead ID", some "12"), ("Lead Name", some "Ann")],
      [("Lead ID", some "x")]]).1 = 1 := by decide

example : rowToLead [("Lead Name", some "Ann")] = none := by decide

example : pyParseInt " -42 " = some (-42) := by decide

example : pyParseInt "+7" = some 7 := by decide

example : pyParseInt "" = none := by decide

/-! ### Helper lemmas about the CSV processing loop -/

/-- Characterization of the `process_csv_data` loop from any accumulator:
it adds one count per row that maps to a `Lead` and appends the
corresponding merges in row order. -/
lemma process_csv_foldl (rows : List Row) (n : Nat) (ops : List DbOp) :
    rows.foldl
      (fun (acc : Nat × List DbOp) row =>
        match rowToLead row with
        | some l => (acc.1 + 1, acc.2 ++ [DbOp.merge l])
        | none => acc)
      (n, ops)
    = (n + rows.countP (fun r => (rowToLead r).isSome),
       ops ++ (rows.filterMap rowToLead).map DbOp.merge) := by
  induction rows generalizing n ops with
  | nil => simp
  | cons r rs ih =>
    cases h : rowToLead r with
    | none =>
      simp only [List.foldl_cons, h, List.countP_cons, List.filterMap_cons]
      simp [ih, h]
    | some l =>
      simp only [List.foldl_cons, h, List.countP_cons, List.filterMap_cons]
      simp [ih, h]
      omega

lemma process_csv_data_eq (rows : List Row) :
    process_csv_data rows
    = (rows.countP (fun r => (rowToLead r).isSome),
       (rows.filterMap rowToLead).map DbOp.merge ++ [DbOp.commit]) := by
  simp [process_csv_data, process_csv_foldl]

/-! ### Claim theorems -/

/-- C1: the spec claims an unsupported content type yields HTTP 400, but the
`HTTPException(400)` raised on main.py line 127 is inside the handler's
`try` block, so the blanket `except Exception` on line 135 re-raises it as
HTTP 500 with the 400 embedded in the detail string.  This theorem
evaluates the handler at a failing input (`content_type="text/plain"`). -/
theorem upload_unsupported_type_gets_500 :
    upload_file "notes.txt" "text/plain" []
      = UploadResult.httpError 500 "Failed to process file: 400: Unsupported file type"
      ∧ ∀ d : String, upload_file "notes.txt" "text/plain" [] ≠ UploadResult.httpError 400 d := by
  exact ⟨rfl, fun d h => by simp [upload_file] at h⟩

/-- C2: for a CSV upload the handler returns a 200 whose `processed_count`
equals the number of data rows whose mapping to a `Lead` succeeded; and a
row whose "Lead ID" is missing or unparseable is skipped without aborting
the batch and without changing the count contributed by the other rows. -/
theorem processed_count_counts_valid_rows (filename : String) (rows : List Row) :
    upload_file filename "text/csv" rows
      = UploadResult.ok filename (rows.countP (fun r => (rowToLead r).isSome))
    ∧ ∀ pre bad post, rows = pre ++ bad :: post → rowToLead bad = none →
        (process_csv_data rows).1 = (process_csv_data (pre ++ post)).1 := by
  constructor
  · simp [upload_file, process_csv_data_eq]
  · intro pre bad post hsplit hbad
    subst hsplit
    simp [process_csv_data_eq, List.countP_append, List.countP_cons, hbad]

/-- A CSV data row with a parseable "Lead ID" and a name. -/
def rowA : Row := [("Lead ID", some "1"), ("Lead Name", some "Ann")]

/-- A CSV data row whose header had no "Lead ID" column. -/
def rowNoId : Row := [("Lead Name", some "NoId")]

/-- A second valid CSV data row. -/
def rowB : Row := [("Lead ID", some "2"), ("Status", some "Hot")]

theorem processed_count_counts_valid_rows_witness :
    ([rowA, rowNoId, rowB] = [rowA] ++ rowNoId :: [rowB]
      ∧ rowToLead rowNoId = none)
    ∧ (process_csv_data [rowA, rowNoId, rowB]).1
        = (process_csv_data ([rowA] ++ [rowB])).1 :=
  ⟨⟨rfl, by decide⟩,
    (processed_count_counts_valid_rows "leads.csv" [rowA, rowNoId, rowB]).2
      [rowA] rowNoId [rowB] rfl (by decide)⟩

/-- C4: a JSON upload only prints "Unsupported file type" (main.py line
123) and falls through to the success response, so the handler always
returns 200 with `processed_count = 0` — never a nonzero count. -/
theorem upload_json_zero_processed (filename : String) (rows : List Row) :
    upload_file filename "application/json" rows = UploadResult.ok filename 0 := rfl

/-- C8: the session trace of one CSV ingestion is the merges of the
successfully mapped rows, in row order, followed by exactly one commit; no
commit occurs before the final position, so nothing merged mid-batch is
committed until every row has been processed. -/
theorem single_commit_at_end (rows : List Row) :
    (process_csv_data rows).2
      = (rows.filterMap rowToLead).map DbOp.merge ++ [DbOp.commit]
    ∧ ((process_csv_data rows).2).count DbOp.commit = 1
    ∧ ((process_csv_data rows).2).dropLast.count DbOp.commit = 0 := by
  refine ⟨by simp [process_csv_data_eq], ?_, ?_⟩
  · rw [process_csv_data_eq]
    simp [List.count_append, List.count_eq_zero, List.count_cons]
  · rw [process_csv_data_eq]
    simp only [List.dropLast_concat]
    simp [List.count_eq_zero]

/-! ### Upsert semantics of repeated ingestion -/

/-- The write-accumulating fold of `lastWrite` from an arbitrary start: any
earlier candidate is simply overridden by later writes. -/
lemma lastWrite_foldl (rows : List Row) (k : Int) (acc : Option Lead) :
    rows.foldl
      (fun acc row =>
        match rowToLead row with
        | some l => if k = l.id then some l else acc
        | none => acc)
      acc
    = (lastWrite rows k).or acc := by
  induction rows generalizing acc with
  | nil => simp [lastWrite]
  | cons r rs ih =>
    rw [List.foldl_cons]
    rw [show lastWrite (r :: rs) k
        = rs.foldl
            (fun acc row =>
              match rowToLead row with
              | some l => if k = l.id then some l else acc
              | none => acc)
            (match rowToLead r with
             | some l => if k = l.id then some l else none
             | none => none) from rfl]
    rw [ih, ih]
    cases h : rowToLead r with
    | none => simp
    | some l =>
      by_cases hk : k = l.id
      · simp only [hk, if_pos rfl]
        cases lastWrite rs l.id <;> simp
      · simp only [if_neg hk]
        cases lastWrite rs k <;> simp

/-- Pointwise value of the stored state after one ingestion: the last write
at that key if the file has one, otherwise the previous stored value. -/
lemma ingest_apply (s : LeadState) (rows : List Row) (k : Int) :
    ingest s rows k = (lastWrite rows k).or (s k) := by
  induction rows generalizing s with
  | nil => simp [ingest, lastWrite]
  | cons r rs ih =>
    rw [show ingest s (r :: rs) = ingest (mergeRow s r) rs from rfl, ih]
    rw [show lastWrite (r :: rs) k
        = rs.foldl
            (fun acc row =>
              match rowToLead row with
              | some l => if k = l.id then some l else acc
              | none => acc)
            (match rowToLead r with
             | some l => if k = l.id then some l else none
             | none => none) from rfl]
    rw [lastWrite_foldl]
    cases h : rowToLead r with
    | none =>
      simp [mergeRow, h]
    | some l =>
      by_cases hk : k = l.id
      · simp only [mergeRow, h, applyMerge, hk, if_pos rfl]
        cases lastWrite rs l.id <;> simp
      · simp only [mergeRow, h, applyMerge, if_neg hk]
        cases lastWrite rs k <;> simp

/-- C5: ingesting a CSV file whose rows all carry a parseable integer
"Lead ID" twice in succession leaves the stored leads exactly as one
ingestion does, and each merge overwrites the full record stored under the
row's id (upsert-by-id). -/
theorem ingest_twice_eq_once (s : LeadState) (rows : List Row)
    (h : ∀ row ∈ rows, (rowToLead row).isSome) :
    ingest (ingest s rows) rows = ingest s rows
    ∧ ∀ (st : LeadState) (l : Lead), applyMerge st l l.id = some l := by
  constructor
  · funext k
    rw [ingest_apply, ingest_apply]
    cases lastWrite rows k <;> simp
  · intro st l
    simp [applyMerge]

/-- A two-row CSV file in which every row has a parseable integer id. -/
def goodRows : List Row := [rowA, rowB]

/-- The empty leads table. -/
def emptyLeads : LeadState := fun _ => none

theorem ingest_twice_eq_once_witness :
    (∀ row ∈ goodRows, (rowToLead row).isSome)
    ∧ (ingest (ingest emptyLeads goodRows) goodRows = ingest emptyLeads goodRows
        ∧ ∀ (st : LeadState) (l : Lead), applyMerge st l l.id = some l) :=
  ⟨by decide, ingest_twice_eq_once emptyLeads goodRows (by decide)⟩

/-! ### The filtered leads query -/

/-- Filtering a primary-key-unique table by one id keeps at most one row. -/
lemma length_filter_id_le_one (db : List Lead) (i : Int)
    (hkeys : (db.map Lead.id).Nodup) :
    (db.filter (fun l => l.id == i)).length ≤ 1 := by
  induction db with
  | nil => simp
  | cons a as ih =>
    rw [List.map_cons, List.nodup_cons] at hkeys
    by_cases hai : a.id = i
    · have hnil : as.filter (fun l => l.id == i) = [] := by
        rw [List.eq_nil_iff_forall_not_mem]
        intro b hb
        rw [List.mem_filter] at hb
        have hbi : b.id = i := by simpa using hb.2
        exact hkeys.1 (hai ▸ hbi ▸ List.mem_map_of_mem Lead.id hb.1)
      simp [List.filter_cons, hai, hnil]
    · have : (a.id == i) = false := by simpa using hai
      simp only [List.filter_cons, this, Bool.false_eq_true, if_false]
      exact ih hkeys.2

/-- C3: when the `id` query parameter is supplied, `get_leads` filters by
`Lead.id` alone — any two filter sets sharing that id produce the same
query — and because id is the primary key (its stored values are distinct)
the result has at most one record. -/
theorem get_leads_id_shortcircuits (db : List Lead) (f : LeadFilters) (i : Int)
    (hid : f.id = some i) (hkeys : (db.map Lead.id).Nodup) :
    get_leads db f = db.filter (fun l => l.id == i)
    ∧ (∀ g : LeadFilters, g.id = some i → get_leads db g = get_leads db f)
    ∧ (get_leads db f).length ≤ 1 := by
  have hf : get_leads db f = db.filter (fun l => l.id == i) := by
    simp [get_leads, hid]
  refine ⟨hf, ?_, ?_⟩
  · intro g hg
    rw [hf]
    simp [get_leads, hg]
  · rw [hf]
    exact length_filter_id_le_one db i hkeys

/-- A concrete stored leads table with distinct primary keys. -/
def dbTwo : List Lead :=
  [{ id := 1, lead_name := some "Ann", email := some "a@x.io",
     source := some "Web", interest_level := some "High",
     status := some "New", salesperson := some "Sam" },
   { id := 2, lead_name := some "Bob", email := some "b@x.io",
     source := some "Ref", interest_level := some "Low",
     status := some "Old", salesperson := some "Sue" }]

/-- A filter set that supplies `id` together with contradicting non-id
filters (which must be ignored). -/
def filtersIdAndName : LeadFilters :=
  { id := some 1, name := some "Bob", source := some "Ref",
    interest_level := none, status := none, salesperson := none }

theorem get_leads_id_shortcircuits_witness :
    (filtersIdAndName.id = some 1 ∧ (dbTwo.map Lead.id).Nodup)
    ∧ (get_leads dbTwo filtersIdAndName = dbTwo.filter (fun l => l.id == 1)
        ∧ (∀ g : LeadFilters, g.id = some 1 →
            get_leads dbTwo g = get_leads dbTwo filtersIdAndName)
        ∧ (get_leads dbTwo filtersIdAndName).length ≤ 1) :=
  ⟨⟨rfl, by decide⟩,
    get_leads_id_shortcircuits dbTwo filtersIdAndName 1 rfl (by decide)⟩

/-- Membership through one conditional filter step of the query chain. -/
lemma mem_applyOptFilter (q : List Lead) (p : Option String)
    (field : Lead → Option String) (l : Lead) :
    l ∈ applyOptFilter q p field
      ↔ l ∈ q ∧ (match p with
                 | some v => field l == some v
                 | none => true) = true := by
  cases p <;> simp [applyOptFilter, List.mem_filter]

/-- C9: when `id` is absent, the supplied filters apply conjunctively — a
lead is returned iff it is stored and matches every supplied filter — and a
request with no parameters at all returns the whole table. -/
theorem get_leads_filters_conjunctive (db : List Lead) (f : LeadFilters)
    (hid : f.id = none) :
    (∀ l, l ∈ get_leads db f ↔ l ∈ db ∧ matchesAll f l = true)
    ∧ get_leads db noFilters = db := by
  constructor
  · intro l
    simp only [get_leads, hid]
    rw [mem_applyOptFilter, mem_applyOptFilter, mem_applyOptFilter,
      mem_applyOptFilter, mem_applyOptFilter]
    simp [matchesAll, Bool.and_eq_true, and_assoc]
  · simp [get_leads, noFilters, applyOptFilter]

/-- A filter set supplying `source` and `salesperson` but no `id`. -/
def filtersNoId : LeadFilters :=
  { id := none, name := none, source := some "Ref",
    interest_level := none, status := none, salesperson := some "Sue" }

theorem get_leads_filters_conjunctive_witness :
    filtersNoId.id = none
    ∧ ∀ l, l ∈ get_leads dbTwo filtersNoId ↔ l ∈ dbTwo ∧ matchesAll filtersNoId l = true :=
  ⟨rfl, (get_leads_filters_conjunctive dbTwo filtersNoId rfl).1⟩

/-! ### Startup health check -/

/-- Outcome of each individual check step in a given environment. -/
def stepPassed (env : DbEnv) : CheckStep → Bool
  | CheckStep.connection => test_connection env
  | CheckStep.migration => check_migration_status env
  | CheckStep.schemaDrift => check_schema_drift env

/-- The fixed order in which `comprehensive_db_check` runs its steps. -/
def checkOrder : List CheckStep :=
  [CheckStep.connection, CheckStep.migration, CheckStep.schemaDrift]

/-- What a non-bypassed run of `comprehensive_db_check` must look like: the
steps performed are an initial segment of the canonical order, every step
before the last one performed passed, the run fails exactly when one of the
performed steps failed (hence at the last one), and a passing run performed
all three steps. -/
def checkOutcomeSpec (env : DbEnv) : Prop :=
  (comprehensive_db_check env).2
      = checkOrder.take (comprehensive_db_check env).2.length
  ∧ (∀ s ∈ (comprehensive_db_check env).2.dropLast, stepPassed env s = true)
  ∧ ((comprehensive_db_check env).1 = false
      ↔ ∃ s ∈ (comprehensive_db_check env).2, stepPassed env s = false)
  ∧ ((comprehensive_db_check env).1 = true
      → (comprehensive_db_check env).2 = checkOrder)

/-- C6: `comprehensive_db_check` runs connectivity, then migration
currency, then schema drift, stopping with failure at the first failing
step without running the later ones; when `RAILWAY_ENVIRONMENT_NAME` is set
(to a non-empty value) it returns success immediately, performing none of
the three checks. -/
theorem comprehensive_check_order (env : DbEnv) :
    (railwayFlag env = true → comprehensive_db_check env = (true, []))
    ∧ (railwayFlag env = false → checkOutcomeSpec env) := by
  obtain ⟨rn, c, m, d⟩ := env
  constructor
  · intro hflag
    simp [comprehensive_db_check, hflag]
  · intro hflag
    cases c <;> cases m <;> cases d <;>
      simp [checkOutcomeSpec, comprehensive_db_check, hflag, checkOrder,
        stepPassed, test_connection, check_migration_status, check_schema_drift]

/-- An environment on Railway hosting with all three probes failing. -/
def envRailway : DbEnv :=
  { railway_environment_name := some "production", conn_ok := false,
    migration_current := false, schema_matches := false }

/-- A local environment whose migration check fails. -/
def envStale : DbEnv :=
  { railway_environment_name := none, conn_ok := true,
    migration_current := false, schema_matches := true }

theorem comprehensive_check_order_witness :
    (railwayFlag envRailway = true ∧ comprehensive_db_check envRailway = (true, []))
    ∧ (railwayFlag envStale = false ∧ checkOutcomeSpec envStale) :=
  ⟨⟨by decide, (comprehensive_check_order envRailway).1 (by decide)⟩,
    ⟨by decide, (comprehensive_check_order envStale).2 (by decide)⟩⟩

/-- C7: outside a managed-hosting environment, if any of the three
health-check steps fails then `startup_event` raises `RuntimeError`, and
the `__main__` block therefore never reaches `uvicorn.run` — the process
does not serve requests. -/
theorem startup_aborts_on_check_failure (env : DbEnv)
    (hflag : railwayFlag env = false)
    (hfail : env.conn_ok = false ∨ env.migration_current = false
      ∨ env.schema_matches = false) :
    startup_event env
      = Except.error "Database issues detected - may have unexpected behaviors"
    ∧ run_main env
      = Except.error "Database issues detected - may have unexpected behaviors" := by
  have hchk : (comprehensive_db_check env).1 = false := by
    obtain ⟨rn, c, m, d⟩ := env
    cases c <;> cases m <;> cases d <;>
      simp_all [comprehensive_db_check, test_connection,
        check_migration_status, check_schema_drift]
  have hs : startup_event env
      = Except.error "Database issues detected - may have unexpected behaviors" := by
    simp [startup_event, hchk]
  exact ⟨hs, by simp [run_main, hs]⟩

theorem startup_aborts_on_check_failure_witness :
    (railwayFlag envStale = false
      ∧ (envStale.conn_ok = false ∨ envStale.migration_current = false
          ∨ envStale.schema_matches = false))
    ∧ (startup_event envStale
        = Except.error "Database issues detected - may have unexpected behaviors"
      ∧ run_main envStale
        = Except.error "Database issues detected - may have unexpected behaviors") :=
  ⟨⟨by decide, by decide⟩,
    startup_aborts_on_check_failure envStale (by decide) (by decide)⟩

/-! ### Response-model validation of stored leads -/

/-- List validation fails as soon as any member fails. -/
lemma validateAll_eq_none_of_mem (ls : List Lead) (l : Lead)
    (hmem : l ∈ ls) (hbad : validateLeadRead l = none) :
    validateAll ls = none := by
  induction ls with
  | nil => cases hmem
  | cons a as ih =>
    rcases List.mem_cons.mp hmem with rfl | hmem'
    · simp [validateAll, hbad]
    · cases h : validateLeadRead a with
      | none => simp [validateAll, h]
      | some r => simp [validateAll, h, ih hmem']

/-- C10: the stored `Lead` row allows NULL in every non-id column, but the
`LeadRead` response schema requires an actual string there; hence any
stored lead with a NULL field that the query returns fails response-model
validation and `GET /leads/` errors (HTTP 500) instead of returning the
record. -/
theorem null_field_breaks_leads_response (db : List Lead) (f : LeadFilters)
    (l : Lead) (hmem : l ∈ get_leads db f)
    (hnull : l.lead_name = none ∨ l.email = none ∨ l.source = none
      ∨ l.interest_level = none ∨ l.status = none ∨ l.salesperson = none) :
    validateLeadRead l = none
    ∧ get_leads_endpoint db f = LeadsResponse.validationError := by
  have hbad : validateLeadRead l = none := by
    obtain ⟨i, ln, em, so, il, st, sp⟩ := l
    cases ln <;> cases em <;> cases so <;> cases il <;> cases st <;> cases sp <;>
      simp [validateLeadRead] <;> simp_all
  refine ⟨hbad, ?_⟩
  simp [get_leads_endpoint, validateAll_eq_none_of_mem _ l hmem hbad]

/-- A stored lead imported from a CSV row that had no contact-information
column: its `email` is NULL. -/
def leadNoEmail : Lead :=
  { id := 7, lead_name := some "Cara", email := none, source := some "Web",
    interest_level := some "High", status := some "New",
    salesperson := some "Sam" }

theorem null_field_breaks_leads_response_witness :
    (leadNoEmail ∈ get_leads [leadNoEmail] noFilters
      ∧ (leadNoEmail.lead_name = none ∨ leadNoEmail.email = none
          ∨ leadNoEmail.source = none ∨ leadNoEmail.interest_level = none
          ∨ leadNoEmail.status = none ∨ leadNoEmail.salesperson = none))
    ∧ (validateLeadRead leadNoEmail = none
      ∧ get_leads_endpoint [leadNoEmail] noFilters = LeadsResponse.validationError) :=
  ⟨⟨by decide, by decide⟩,
    null_field_breaks_leads_response [leadNoEmail] noFilters leadNoEmail
      (by decide) (by decide)⟩

end Glimpse
